import Mathlib

/-!
Shallow embedding of the file custom_components/remootio/cover.py from the
divparty/remootio3-ha repository.

The file under verification is a Home Assistant cover-entity adapter for the
aioremootio client library.  Its methods are one-line delegations: we embed
each method as a pure function that returns the list of client calls it makes
(its effect trace), the result it hands to its caller given the outcome of the
delegated client call, and the entity value after the call.  Enumerations of
the external aioremootio library (State, EventType) are embedded with the
members the adapter code refers to together with the remaining members of the
published library API, since the adapter quantifies over all of them.
-/

namespace Remootio

/-- State enum of the external aioremootio client library.  The adapter reads
the members OPENING, CLOSING, CLOSED and NO_SENSOR_INSTALLED; the library also
publishes UNKNOWN and OPEN. -/
inductive State where
  | UNKNOWN
  | CLOSED
  | OPEN
  | OPENING
  | CLOSING
  | NO_SENSOR_INSTALLED
  deriving DecidableEq, Repr

/-- Event-type enum of the external aioremootio client library; the adapter
compares against LEFT_OPEN only. -/
inductive EventType where
  | STATE_CHANGE
  | RELAY_TRIGGER
  | LEFT_OPEN
  | KEY_MANAGEMENT
  | RESTART
  deriving DecidableEq, Repr

/-- Python method str.lower, embedded as a character-wise map so that it
evaluates by kernel reduction (only basic latin letters occur here, on which
Char.toLower agrees with the Python method). -/
def pyLower (s : String) : String :=
  ⟨s.data.map Char.toLower⟩

/-- Python expression member.name.lower() for the EventType enum. -/
def EventType.lowerName : EventType → String
  | .STATE_CHANGE => "state_change"
  | .RELAY_TRIGGER => "relay_trigger"
  | .LEFT_OPEN => "left_open"
  | .KEY_MANAGEMENT => "key_management"
  | .RESTART => "restart"

/-- Events delivered by the aioremootio client to event listeners carry an
event type. -/
structure Event where
  type : EventType
  deriving DecidableEq, Repr

/-- State changes delivered by the aioremootio client to state-change
listeners carry the previous and the new state. -/
structure StateChange where
  old_state : Option State
  new_state : State
  deriving DecidableEq, Repr

/-- Handle to the external, already-connected aioremootio client; the adapter
reads its state and api_version attributes. -/
structure RemootioClient where
  state : State
  api_version : Nat
  deriving DecidableEq, Repr

/-- Device class of a Home Assistant cover entity (external host-platform
enum; the adapter only forwards it). -/
inductive CoverDeviceClass where
  | GARAGE
  | GATE
  | DOOR
  | SHUTTER
  deriving DecidableEq, Repr

/-- Record homeassistant.helpers.entity.DeviceInfo as populated by the
constructor of RemootioCover. -/
structure DeviceInfo where
  identifiers : List (String × String)
  name : String
  manufacturer : String
  model : String
  sw_version : String
  deriving DecidableEq, Repr

/-- Constant DOMAIN from the const module of the package: the integration
domain, which Home Assistant requires to equal the integration directory name
custom_components/remootio. -/
def DOMAIN : String := "remootio"

/-- Constant CONF_SERIAL_NUMBER from the const module of the package: the
configuration key under which the device serial number is stored. -/
def CONF_SERIAL_NUMBER : String := "serial_number"

/-- Constant CONF_DEVICE_CLASS from homeassistant.const. -/
def CONF_DEVICE_CLASS : String := "device_class"

/-- Constant ATTR_SERIAL_NUMBER from the const module of the package: the
event payload key for the serial number. -/
def ATTR_SERIAL_NUMBER : String := "serial_number"

/-- Constant REMOOTIO_CLIENT from the const module of the package: the key
under which the pre-built client handle is stored in the per-entry shared
storage. -/
def REMOOTIO_CLIENT : String := "remootio_client"

/-- Constant ATTR_ENTITY_ID from homeassistant.const. -/
def ATTR_ENTITY_ID : String := "entity_id"

/-- Constant ATTR_NAME from homeassistant.const. -/
def ATTR_NAME : String := "name"

/-- Entity class RemootioCover.  Fields mirror the attributes assigned in the
constructor (_attr_unique_id, _attr_device_class, _remootio_client,
_attr_device_info); entity_id is the identifier the host platform assigns to
the entity after registration. -/
structure RemootioCover where
  attr_unique_id : String
  attr_device_class : CoverDeviceClass
  remootio_client : RemootioClient
  attr_device_info : DeviceInfo
  entity_id : String
  deriving DecidableEq, Repr

/-- Constructor of RemootioCover: stores the unique id, device class and
client, and builds the DeviceInfo record.  The constructor does not assign
entity_id; the host platform assigns it after registration, so it is empty at
construction. -/
def RemootioCover.init (unique_id : String) (name : String)
    (device_class : CoverDeviceClass) (remootio_client : RemootioClient) :
    RemootioCover :=
  { attr_unique_id := unique_id
    attr_device_class := device_class
    remootio_client := remootio_client
    attr_device_info :=
      { identifiers := [(DOMAIN, unique_id)]
        name := name
        manufacturer := "Assemblabs Ltd"
        model := "Remootio 3"
        sw_version := toString remootio_client.api_version }
    entity_id := "" }

/-- Accessor unique_id of the entity: Home Assistant returns
_attr_unique_id. -/
def RemootioCover.unique_id (self : RemootioCover) : String :=
  self.attr_unique_id

/-- Accessor name of the entity: with _attr_has_entity_name set and no
_attr_name, Home Assistant resolves the entity name from the device-registry
entry built from _attr_device_info. -/
def RemootioCover.name (self : RemootioCover) : String :=
  self.attr_device_info.name

/-- Property is_opening: the state of the client equals State.OPENING. -/
def RemootioCover.is_opening (self : RemootioCover) : Bool :=
  self.remootio_client.state == State.OPENING

/-- Property is_closing: the state of the client equals State.CLOSING. -/
def RemootioCover.is_closing (self : RemootioCover) : Bool :=
  self.remootio_client.state == State.CLOSING

/-- Property is_closed: returns None when the client state is
NO_SENSOR_INSTALLED, otherwise whether the client state equals
State.CLOSED. -/
def RemootioCover.is_closed (self : RemootioCover) : Option Bool :=
  if self.remootio_client.state == State.NO_SENSOR_INSTALLED then
    none
  else
    some (self.remootio_client.state == State.CLOSED)

/-- Listener class RemootioCoverStateChangeListener: holds its owning
entity. -/
structure RemootioCoverStateChangeListener where
  owner : RemootioCover
  deriving DecidableEq, Repr

/-- Listener class RemootioCoverEventListener: holds its owning entity. -/
structure RemootioCoverEventListener where
  owner : RemootioCover
  deriving DecidableEq, Repr

/-- Calls made on the aioremootio client by the adapter. -/
inductive ClientCall where
  | trigger_open
  | trigger_close
  | trigger_state_update
  | add_state_change_listener (l : RemootioCoverStateChangeListener)
  | add_event_listener (l : RemootioCoverEventListener)
  deriving DecidableEq, Repr

/-- Errors raised by a delegated aioremootio client call.  The adapter
installs no handler and never inspects them. -/
structure RemootioError where
  code : Nat
  deriving DecidableEq, Repr

/-- Outcome of running one adapter method: the client calls it made, the
result it hands to its caller, and the entity value afterwards. -/
structure MethodRun where
  calls : List ClientCall
  result : Except RemootioError Unit
  entity : RemootioCover
  deriving Repr

/-- Method async_update: one awaited call trigger_state_update on the client.
The argument r is the outcome the client produces for that single call; the
method installs no handler, so r propagates, and no entity field is
assigned. -/
def RemootioCover.async_update (self : RemootioCover)
    (r : Except RemootioError Unit) : MethodRun :=
  { calls := [ClientCall.trigger_state_update], result := r, entity := self }

/-- Method async_open_cover: ignores kwargs and performs one awaited call
trigger_open on the client, whose outcome r propagates; no entity field is
assigned. -/
def RemootioCover.async_open_cover (self : RemootioCover)
    (kwargs : List (String × String)) (r : Except RemootioError Unit) :
    MethodRun :=
  { calls := [ClientCall.trigger_open], result := r, entity := self }

/-- Method async_close_cover: ignores kwargs and performs one awaited call
trigger_close on the client, whose outcome r propagates; no entity field is
assigned. -/
def RemootioCover.async_close_cover (self : RemootioCover)
    (kwargs : List (String × String)) (r : Except RemootioError Unit) :
    MethodRun :=
  { calls := [ClientCall.trigger_close], result := r, entity := self }

/-- Method async_added_to_hass, as its trace of client calls on the success
path: subscribe a fresh state-change listener, then a fresh event listener,
then await async_update of the entity itself. -/
def RemootioCover.async_added_to_hass (self : RemootioCover) :
    List ClientCall :=
  [ClientCall.add_state_change_listener ⟨self⟩,
   ClientCall.add_event_listener ⟨self⟩] ++
    (self.async_update (Except.ok ())).calls

/-- Actions a listener performs on the host platform. -/
inductive HassAction where
  | async_write_ha_state
  deriving DecidableEq, Repr

/-- Method execute of RemootioCoverStateChangeListener: one call
async_write_ha_state on the owner, whatever the state change is. -/
def RemootioCoverStateChangeListener.execute
    (self : RemootioCoverStateChangeListener) (client : RemootioClient)
    (subject : StateChange) : List HassAction :=
  [HassAction.async_write_ha_state]

/-- Events fired on the Home Assistant bus via hass.bus.async_fire: an event
type string and a payload mapping. -/
structure BusEvent where
  event_type : String
  payload : List (String × String)
  deriving DecidableEq, Repr

/-- Method execute of RemootioCoverEventListener: when the type of the
subject is LEFT_OPEN, fire one bus event whose type string is the lowercased
DOMAIN joined by an underscore to the lowercased member name of the subject
type, with a payload of the entity id, the unique id (serial number) and the
name of the owner; otherwise do nothing. -/
def RemootioCoverEventListener.execute (self : RemootioCoverEventListener)
    (client : RemootioClient) (subject : Event) : List BusEvent :=
  if subject.type == EventType.LEFT_OPEN then
    [{ event_type := pyLower DOMAIN ++ "_" ++ subject.type.lowerName
       payload :=
        [(ATTR_ENTITY_ID, self.owner.entity_id),
         (ATTR_SERIAL_NUMBER, self.owner.unique_id),
         (ATTR_NAME, self.owner.name)] }]
  else
    []

/-- Values stored under a key of the data mapping of a config entry. -/
inductive ConfigValue where
  | string (s : String)
  | deviceClass (c : CoverDeviceClass)
  deriving DecidableEq, Repr

/-- Home Assistant config entries: the data mapping, the title and the entry
id. -/
structure ConfigEntry where
  data : List (String × ConfigValue)
  title : String
  entry_id : String
  deriving DecidableEq, Repr

/-- Handle to the host platform: the field data is the shared storage
hass.data, read here only through the nested lookup by domain, entry id and
storage key. -/
structure Hass where
  data : String → String → String → Option RemootioClient

/-- Function async_setup_entry: reads the serial number and the device class
from the data of the config entry, the pre-built client from the shared
storage under DOMAIN, the entry id and REMOOTIO_CLIENT, and registers one
RemootioCover built from those values and the title of the entry via
async_add_entities.  A missing key or ill-typed value raises in Python,
modelled as none; some es means es is the list passed to
async_add_entities. -/
def async_setup_entry (hass : Hass) (config_entry : ConfigEntry) :
    Option (List RemootioCover) :=
  match config_entry.data.lookup CONF_SERIAL_NUMBER,
      config_entry.data.lookup CONF_DEVICE_CLASS,
      hass.data DOMAIN config_entry.entry_id REMOOTIO_CLIENT with
  | some (ConfigValue.string serial_number),
      some (ConfigValue.deviceClass device_class), some remootio_client =>
    some [RemootioCover.init serial_number config_entry.title device_class
      remootio_client]
  | _, _, _ => none

/-- Number of the three indications is_opening, is_closing and is_closed that
report an affirmative value at once. -/
def exclusiveCount (self : RemootioCover) : Nat :=
  (if self.is_opening then 1 else 0) + (if self.is_closing then 1 else 0) +
    (if self.is_closed == some true then 1 else 0)

/-- C1, counterexample: at an entity whose client state is
NO_SENSOR_INSTALLED, is_closed does not return whether the state equals
CLOSED, so it is not a direct pass-through of the state enum. -/
theorem is_closed_not_direct_pass_through :
    (RemootioCover.init "sn" "Gate" CoverDeviceClass.GARAGE
        ⟨State.NO_SENSOR_INSTALLED, 1⟩).is_closed ≠
      some ((RemootioCover.init "sn" "Gate" CoverDeviceClass.GARAGE
        ⟨State.NO_SENSOR_INSTALLED, 1⟩).remootio_client.state ==
          State.CLOSED) := by
  decide

/-- C1, amended: for every client state value, is_opening returns the test
state == OPENING, is_closing returns the test state == CLOSING, and for every
state other than NO_SENSOR_INSTALLED is_closed returns the test
state == CLOSED; the client state is used with no other transformation. -/
theorem properties_pass_through_state (self : RemootioCover) :
    self.is_opening = (self.remootio_client.state == State.OPENING) ∧
    self.is_closing = (self.remootio_client.state == State.CLOSING) ∧
    (self.remootio_client.state ≠ State.NO_SENSOR_INSTALLED →
      self.is_closed = some (self.remootio_client.state == State.CLOSED)) := by
  refine ⟨rfl, rfl, fun h => ?_⟩
  simp [RemootioCover.is_closed, h]

/-- Witness for C1 at a concrete entity whose client state is CLOSED. -/
theorem properties_pass_through_state_witness :
    (RemootioCover.init "sn" "Gate" CoverDeviceClass.GARAGE
        ⟨State.CLOSED, 1⟩).is_closed = some true :=
  ((properties_pass_through_state _).2.2 (by decide)).trans (by decide)

/-- C2: async_open_cover performs exactly the single client call trigger_open
and async_close_cover exactly the single client call trigger_close, for every
invocation, any keyword arguments and any call outcome, and neither touches
the entity. -/
theorem commands_call_exactly_one_client_method (self : RemootioCover)
    (kwargs : List (String × String)) (r : Except RemootioError Unit) :
    (self.async_open_cover kwargs r).calls = [ClientCall.trigger_open] ∧
    (self.async_close_cover kwargs r).calls = [ClientCall.trigger_close] ∧
    (self.async_open_cover kwargs r).entity = self ∧
    (self.async_close_cover kwargs r).entity = self :=
  ⟨rfl, rfl, rfl, rfl⟩

/-- C3: async_added_to_hass subscribes exactly two listener objects — first a
state-change listener, then an event listener, both owned by the entity — and
afterwards performs exactly one trigger_state_update call. -/
theorem added_to_hass_subscribes_then_refreshes (self : RemootioCover) :
    self.async_added_to_hass =
      [ClientCall.add_state_change_listener ⟨self⟩,
       ClientCall.add_event_listener ⟨self⟩,
       ClientCall.trigger_state_update] :=
  rfl

/-- C4: for every device event of type LEFT_OPEN, the event listener fires
exactly one bus event whose payload carries exactly the entity id, the unique
id (serial number) and the name of the owning entity. -/
theorem left_open_event_fires_one_bus_event
    (self : RemootioCoverEventListener) (client : RemootioClient)
    (subject : Event) (h : subject.type = EventType.LEFT_OPEN) :
    self.execute client subject =
      [{ event_type := pyLower DOMAIN ++ "_" ++ subject.type.lowerName
         payload := [(ATTR_ENTITY_ID, self.owner.entity_id),
                     (ATTR_SERIAL_NUMBER, self.owner.unique_id),
                     (ATTR_NAME, self.owner.name)] }] := by
  simp [RemootioCoverEventListener.execute, h]

/-- Witness for C4 at a concrete listener and a LEFT_OPEN event. -/
theorem left_open_event_fires_one_bus_event_witness :
    RemootioCoverEventListener.execute
        ⟨RemootioCover.init "sn" "Gate" CoverDeviceClass.GARAGE
          ⟨State.OPEN, 2⟩⟩
        ⟨State.OPEN, 2⟩ ⟨EventType.LEFT_OPEN⟩ =
      [{ event_type := "remootio_left_open"
         payload := [("entity_id", ""), ("serial_number", "sn"),
                     ("name", "Gate")] }] :=
  (left_open_event_fires_one_bus_event _ _ _ rfl).trans (by decide)

/-- C5: for every state-change notification, the state-change listener calls
async_write_ha_state on its owner exactly once, regardless of the content of
the state change. -/
theorem state_change_writes_ha_state_once
    (self : RemootioCoverStateChangeListener) (client : RemootioClient)
    (subject : StateChange) :
    self.execute client subject = [HassAction.async_write_ha_state] :=
  rfl

/-- C6: whenever the data of the config entry holds a serial number and a
device class and the shared storage holds a client under the domain, the entry
id and the client key, async_setup_entry registers exactly one entity,
constructed from those two values, the title of the entry and the client. -/
theorem setup_entry_registers_one_entity (hass : Hass)
    (config_entry : ConfigEntry) (serial_number : String)
    (device_class : CoverDeviceClass) (remootio_client : RemootioClient)
    (hs : config_entry.data.lookup CONF_SERIAL_NUMBER =
      some (ConfigValue.string serial_number))
    (hd : config_entry.data.lookup CONF_DEVICE_CLASS =
      some (ConfigValue.deviceClass device_class))
    (hc : hass.data DOMAIN config_entry.entry_id REMOOTIO_CLIENT =
      some remootio_client) :
    async_setup_entry hass config_entry =
      some [RemootioCover.init serial_number config_entry.title device_class
        remootio_client] := by
  unfold async_setup_entry
  rw [hs, hd, hc]

/-- Witness for C6 at a concrete host storage and config entry. -/
theorem setup_entry_registers_one_entity_witness :
    async_setup_entry
        ⟨fun d e k =>
          if d = DOMAIN then
            if e = "entry1" then
              if k = REMOOTIO_CLIENT then some ⟨State.CLOSED, 1⟩ else none
            else none
          else none⟩
        ⟨[(CONF_SERIAL_NUMBER, ConfigValue.string "sn"),
          (CONF_DEVICE_CLASS, ConfigValue.deviceClass CoverDeviceClass.GARAGE)],
          "Garage door", "entry1"⟩ =
      some [RemootioCover.init "sn" "Garage door" CoverDeviceClass.GARAGE
        ⟨State.CLOSED, 1⟩] :=
  setup_entry_registers_one_entity _ _ _ _ _ (by decide) (by decide)
    (by decide)

/-- C7: for every error outcome of the delegated client call,
async_open_cover, async_close_cover and async_update hand exactly that error
to their caller, still perform exactly their single client call (no retry),
and leave every entity field unchanged. -/
theorem methods_propagate_errors_unchanged (self : RemootioCover)
    (kwargs : List (String × String)) (e : RemootioError) :
    self.async_open_cover kwargs (Except.error e) =
      ⟨[ClientCall.trigger_open], Except.error e, self⟩ ∧
    self.async_close_cover kwargs (Except.error e) =
      ⟨[ClientCall.trigger_close], Except.error e, self⟩ ∧
    self.async_update (Except.error e) =
      ⟨[ClientCall.trigger_state_update], Except.error e, self⟩ :=
  ⟨rfl, rfl, rfl⟩

/-- C8: is_closed returns None exactly when the client state is
NO_SENSOR_INSTALLED, and for every other client state it returns whether the
state equals CLOSED. -/
theorem is_closed_none_iff_no_sensor (self : RemootioCover) :
    (self.is_closed = none ↔
      self.remootio_client.state = State.NO_SENSOR_INSTALLED) ∧
    (self.remootio_client.state ≠ State.NO_SENSOR_INSTALLED →
      self.is_closed = some (self.remootio_client.state == State.CLOSED)) := by
  constructor
  · constructor
    · intro h
      by_contra hne
      simp [RemootioCover.is_closed, hne] at h
    · intro h
      simp [RemootioCover.is_closed, h]
  · intro h
    simp [RemootioCover.is_closed, h]

/-- Witness for C8 at concrete entities with and without a sensor. -/
theorem is_closed_none_iff_no_sensor_witness :
    (RemootioCover.init "sn" "Gate" CoverDeviceClass.DOOR
        ⟨State.NO_SENSOR_INSTALLED, 1⟩).is_closed = none ∧
    (RemootioCover.init "sn" "Gate" CoverDeviceClass.DOOR
        ⟨State.OPEN, 1⟩).is_closed = some false :=
  ⟨(is_closed_none_iff_no_sensor _).1.mpr (by decide),
   ((is_closed_none_iff_no_sensor _).2 (by decide)).trans (by decide)⟩

/-- C9: for every client state value, at most one of the indications
is_opening, is_closing and is_closed reports an affirmative value: the
derived opening, closing and closed indications are mutually exclusive. -/
theorem indications_mutually_exclusive (self : RemootioCover) :
    exclusiveCount self ≤ 1 := by
  rcases self with ⟨u, dc, ⟨s, v⟩, di, eid⟩
  cases s <;>
    simp [exclusiveCount, RemootioCover.is_opening, RemootioCover.is_closing,
      RemootioCover.is_closed]

/-- C10: for every device event whose type is not LEFT_OPEN, the event
listener fires no bus event and performs no other action. -/
theorem non_left_open_event_fires_nothing
    (self : RemootioCoverEventListener) (client : RemootioClient)
    (subject : Event) (h : subject.type ≠ EventType.LEFT_OPEN) :
    self.execute client subject = [] := by
  simp [RemootioCoverEventListener.execute, h]

/-- Witness for C10 at a concrete listener and a RESTART event. -/
theorem non_left_open_event_fires_nothing_witness :
    RemootioCoverEventListener.execute
        ⟨RemootioCover.init "sn" "Gate" CoverDeviceClass.GARAGE
          ⟨State.OPEN, 2⟩⟩
        ⟨State.OPEN, 2⟩ ⟨EventType.RESTART⟩ = [] :=
  non_left_open_event_fires_nothing _ _ _ (by decide)

end Remootio
